import Mathlib

/-!
Verification of localslackirc (src/irc.py, src/slack.py) against its
natural-language specification.

This file is a shallow embedding of the parts of the program that the
frozen claims are about.  Python strings/bytes become `String`, Python
floats used as timestamps become `ℚ` (only ordering and subtraction by
constants matter), Python sets become `Finset`, Python dicts become
association lists, exceptions become `Option`/`Except` or explicit
crash flags, and network calls become function parameters supplying the
response.  Every definition is translated from the source; comments cite
the file and function embedded.
-/

namespace LSI

/-! ## String helpers (kernel-reducible replacements for position-based
core string functions; Python `bytes`/`str` operations are modelled on
the character list). -/

/-- `s.split(c)` of Python: split on every single occurrence of `c`,
keeping empty pieces. -/
def splitChar (c : Char) (s : String) : List String :=
  (s.toList.foldr
    (fun ch acc =>
      match acc with
      | cur :: rest => if ch = c then [] :: (cur :: rest) else (ch :: cur) :: rest
      | [] => [[ch]])
    [[]]).map String.mk

/-- Python `s[n:]` on a byte/char string. -/
def strDropL (n : Nat) (s : String) : String := String.mk (s.toList.drop n)

/-- Python `s.startswith(p)`. -/
def strStartsWith (s p : String) : Bool := p.toList.isPrefixOf s.toList

/-- Python `s.endswith(p)`. -/
def strEndsWith (s p : String) : Bool := p.toList.isSuffixOf s.toList

/-- Python `'%s' % x` for an optional string (`None` renders as "None"). -/
def pyStr (o : Option String) : String := o.getD "None"

/-- Structural concat-map over lists (used to model loops that emit
several output lines per element). -/
def concatMap {α β : Type} (f : α → List β) : List α → List β
  | [] => []
  | a :: l => f a ++ concatMap f l

/-! ## Data model (slack.py) -/

/-- slack.py `Topic`: in slack the topic is a record holding a string. -/
structure Topic where
  value : String
deriving DecidableEq, Repr

/-- slack.py `Channel` (the `latest` field keeps just the timestamp of
`LatestMessage`). -/
structure Channel where
  id : String
  name_normalized : String
  purpose : Topic
  topic : Topic
  num_members : Nat := 0
  is_member : Bool := true
  is_channel : Bool := false
  is_group : Bool := false
  is_mpim : Bool := false
  latest : Option ℚ := none
deriving DecidableEq, Repr

/-- slack.py `Channel.name`. -/
def Channel.name (c : Channel) : String := c.name_normalized

/-- slack.py `Channel.real_topic`: the topic if non-empty else the
purpose, with newlines replaced by " | ". -/
def Channel.real_topic (c : Channel) : String :=
  let t := if c.topic.value ≠ "" then c.topic.value else c.purpose.value
  String.mk (t.toList.foldr (fun ch acc => if ch = '\n' then ' ' :: '|' :: ' ' :: acc else ch :: acc) [])

/-- slack.py `Profile`. -/
structure Profile where
  real_name : String := "noname"
  email : Option String := none
  status_text : String := ""
deriving DecidableEq, Repr

/-- slack.py `User`. -/
structure User where
  id : String
  name : String
  profile : Profile
  is_admin : Bool := false
  deleted : Bool := false
deriving DecidableEq, Repr

/-- slack.py `User.real_name`. -/
def User.real_name (u : User) : String := u.profile.real_name

/-- Normalized events produced by slack.py (the `SlackEvent` union,
flattened; `message`/`actionMessage` carry channel, user, text;
`messageBot` carries channel, username, text, bot id). -/
inductive SEvent where
  | message (channel user text : String)
  | actionMessage (channel user text : String)
  | messageBot (channel username text : String) (botId : Option String)
  | join (user channel : String)
  | leave (user channel : String)
  | topicChange (topic channel user : String)
  | fileSharedEv (fileId userId : String) (ts : ℚ)
  | messageDeleted (channel user text : String)
deriving DecidableEq, Repr

/-- One line written to the IRC client (irc.py `_sendreply`, `sendmsg`,
and the raw writes in `_send_chan_info`/`_joined_parted`).  `reply`
keeps the numeric code, the trailing message and the extra tokens
(`_sendreply` additionally inserts the session nick in front of the
extra tokens when serializing). -/
inductive Line where
  | reply (code : Nat) (msg : String) (extra : List String)
  | joinLine (nick channel : String)
  | privmsg (source dest text : String)
  | partLine (name rname dest : String)
deriving DecidableEq, Repr

/-- Recognizer for the JOIN lines written by `_send_chan_info`. -/
def isJoinLine : Line → Bool
  | .joinLine _ _ => true
  | _ => false

/-- Recognizer for the RPL_ENDOFWHOIS (318) numeric. -/
def isEndOfWhois : Line → Bool
  | .reply 318 _ _ => true
  | _ => false

/-! ## History backfill (slack.py `Slack._history`, `Slack._thread_history`)
and the internal event queue of `Slack.event`. -/

/-- slack.py `File` (as it appears in history messages; `announce`
below is `File.announce`). -/
structure HFile where
  id : String := ""
  url_private : String
  size : Nat
  user : String
  name : Option String := none
  mimetype : Option String := none
  channels : List String := []
  groups : List String := []
  ims : List String := []
deriving DecidableEq, Repr

/-- slack.py `File.announce`, called in `_history` after
`f.channels.append(channel.id)`: the announcement message's channel is
`(channels + [cid] + groups + ims).pop()`, i.e. the last element. -/
def fileAnnounce (f : HFile) (cid : String) : SEvent :=
  SEvent.message
    ((((f.channels ++ [cid]) ++ f.groups ++ f.ims).getLast?).getD "")
    f.user
    ("[file upload] " ++ pyStr f.name ++ "\n" ++ pyStr f.mimetype ++ " "
      ++ toString f.size ++ " bytes\n" ++ f.url_private)

/-- slack.py `HistoryMessage` / `HistoryBotMessage`, merged with an
`isBot` tag (the source uses two dataclasses with the same history
fields).  `threadTs` holds the parsed value of the `thread_ts` string. -/
structure HMsg where
  ts : ℚ
  text : String
  user : String := ""
  files : List HFile := []
  threadTs : Option ℚ := none
  isBot : Bool := false
  botId : Option String := none
  username : String := "bot"
deriving DecidableEq, Repr

/-- `_history`'s thread-root test:
`msg.thread_ts and float(msg.thread_ts) == msg.ts`. -/
def isThreadRoot (m : HMsg) : Bool :=
  match m.threadTs with
  | none => false
  | some t => decide (t = m.ts)

/-- The filter of `_thread_history`, `i.ts != i.thread_ts`: in the
source this compares a float (`ts`) with an optional *string*
(`thread_ts`), so in Python it is always true and nothing is filtered
out (the thread root stays in the list). -/
def tsNeqThreadTs (_ : HMsg) : Bool := true

/-- slack.py `Slack._thread_history`, given the concatenated messages of
the `conversations.replies` pages: applies the (vacuous) filter and then
executes `r[0].thread_ts = None`; on an empty result that line raises
IndexError, modelled as `none`. -/
def thread_history (replyMsgs : List HMsg) : Option (List HMsg) :=
  let r := replyMsgs.filter tsNeqThreadTs
  match r with
  | [] => none
  | h :: t => some ({ h with threadTs := none } :: t)

/-- The event chosen by the injection step of `_history`:
`HistoryMessage` becomes `Message(channel, text, user)`,
`HistoryBotMessage` becomes `MessageBot(..., username, channel, bot_id)`. -/
def injectEvent (cid : String) (m : HMsg) : SEvent :=
  if m.isBot then SEvent.messageBot cid m.username m.text m.botId
  else SEvent.message cid m.user m.text

/-- The update of `self._status.last_timestamp` inside the `_history`
loop: `if self._status.last_timestamp < msg.ts: ... = msg.ts`. -/
def maxStep (st : ℚ) (m : HMsg) : ℚ := if st < m.ts then m.ts else st

/-- Result of running the `_history` work-queue loop for one page of one
channel: the events appended to `_internalevents` (in append order), the
final `_status.last_timestamp`, and whether the loop completed without
raising (an IndexError inside `_thread_history` aborts the whole
backfill; the events appended before it stay queued). -/
structure HRun where
  events : List SEvent
  status : ℚ
  ok : Bool
deriving DecidableEq, Repr

/-- slack.py `Slack._history`, inner `while msg_list:` loop for one page
of one channel.  `tf t` supplies the raw `conversations.replies`
messages for thread id `t`; `last0` is the local `last_timestamp`
captured before the loop (the skip test always compares against this
original value, while the running maximum is kept in
`_status.last_timestamp`).  `fuel` bounds the number of pops; the
spliced thread replies re-enter the front of the work queue exactly as
`msg_list = l + msg_list` does. -/
def historyLoop (tf : ℚ → List HMsg) (cid : String) (last0 : ℚ) :
    Nat → List HMsg → ℚ → HRun
  | 0, msgs, st => ⟨[], st, msgs.isEmpty⟩
  | _ + 1, [], st => ⟨[], st, true⟩
  | fuel + 1, m :: rest, st =>
    if m.ts = last0 then
      -- "The last seen message is sent again, skip it"
      historyLoop tf cid last0 fuel rest st
    else
      let st' := maxStep st m
      let fileEvs := m.files.map (fun f => fileAnnounce f cid)
      if isThreadRoot m then
        match thread_history (tf (m.threadTs.getD 0)) with
        | none => ⟨fileEvs, st', false⟩
        | some l =>
          let r := historyLoop tf cid last0 fuel (l.reverse ++ rest) st'
          ⟨fileEvs ++ r.events, r.status, r.ok⟩
      else
        let r := historyLoop tf cid last0 fuel rest st'
        ⟨fileEvs ++ injectEvent cid m :: r.events, r.status, r.ok⟩

/-- One step of delivering queued internal events:
`Slack.event` begins with
`if self._internalevents: return self._internalevents.pop()`, and
Python's `list.pop()` removes the *last* element. -/
def eventPopInternal (q : List SEvent) : Option SEvent × List SEvent :=
  (q.getLast?, q.dropLast)

/-- Repeatedly calling `Slack.event` while the internal queue is
non-empty: the order in which the queued events are handed to the
session. -/
def drainInternal : Nat → List SEvent → List SEvent
  | 0, _ => []
  | n + 1, q =>
    match (eventPopInternal q).1 with
    | none => []
    | some e => e :: drainInternal n (eventPopInternal q).2

/-- Events queued in production order `q` are delivered back-to-front. -/
theorem drainInternal_eq_reverse (q : List SEvent) (n : Nat) (hn : q.length ≤ n) :
    drainInternal n q = q.reverse := by
  induction n generalizing q with
  | zero =>
    have : q = [] := List.length_eq_zero.mp (Nat.le_zero.mp hn)
    subst this; rfl
  | succ n ih =>
    rcases List.eq_nil_or_concat q with h | ⟨l, a, h⟩
    · subst h; rfl
    · subst h
      have h1 : ((l ++ [a]).getLast?) = some a := by
        simp [List.getLast?_concat]
      have h2 : (l ++ [a]).dropLast = l := by
        simp [List.dropLast_concat]
      have hl : l.length ≤ n := by
        have := hn; simp [List.length_append] at this; omega
      simp [drainInternal, eventPopInternal, h1, h2, ih l hl]

/-! ## Reconnect backoff (slack.py `Slack.event`, connection-failure path) -/

/-- The object state of `Slack` that persists between calls to
`event()` (slack.py `Slack.__init__`): note there is *no* backoff field. -/
structure SlackPersist where
  internalevents : List SEvent := []
  sent_by_self : Finset ℚ := ∅
  last_timestamp : ℚ := 0
deriving DecidableEq

/-- slack.py `Slack.event`, path where `rtm_read` and then
`rtm_connect` both raise: `sleeptime` is a *local* variable initialized
to 1 at each call (the source marks this `#FIXME ... broken`); the
function sleeps `sleeptime`, then doubles it if `sleeptime <= 120`, and
returns None — the doubled value is a dead store because nothing saves
it in the object state.  Returns the unchanged state and the delay that
was slept. -/
def eventConnectFailure (st : SlackPersist) : SlackPersist × Nat :=
  let sleeptime := 1
  let slept := sleeptime
  let sleeptime' := if sleeptime ≤ 120 then sleeptime * 2 else sleeptime
  let _unused := sleeptime'
  (st, slept)

/-- The delays slept over `n` consecutive failed calls to `event()`. -/
def consecutiveFailureDelays (st : SlackPersist) : Nat → List Nat
  | 0 => []
  | n + 1 =>
    let p := eventConnectFailure st
    p.2 :: consecutiveFailureDelays p.1 n

/-- Modelled from the spec: the claimed backoff delay before the n-th
retry, doubling per consecutive failure (1, 2, 4, ...) capped at 120. -/
def claimedBackoffDelay (n : Nat) : Nat := min (2 ^ n) 120

/-! ## Membership cache pagination (slack.py `Slack.get_members`) -/

/-- Python dict lookup on a string-keyed association list. -/
def lookupA {α : Type} (m : List (String × α)) (k : String) : Option α :=
  (m.find? (fun p => p.1 == k)).map (fun p => p.2)

/-- Python dict assignment `m[k] = v`. -/
def insertA {α : Type} (m : List (String × α)) (k : String) (v : α) :
    List (String × α) :=
  (k, v) :: m.filter (fun p => !(p.1 == k))

/-- The two dicts of `Slack.__init__` used by `get_members`:
`_get_members_cache` and `_get_members_cache_cursor`. -/
structure MState where
  cache : List (String × Finset String)
  cursorMap : List (String × Option String)
deriving DecidableEq

/-- `self._get_members_cache.get(id_, set())`. -/
def cachedOf (st : MState) (id_ : String) : Finset String :=
  (lookupA st.cache id_).getD ∅

/-- `self._get_members_cache_cursor.get(id_)` (absent and stored-None
both read as None). -/
def cursorOf (st : MState) (id_ : String) : Option String :=
  (lookupA st.cursorMap id_).join

/-- One `conversations.members` response: `ok`, the member ids, and
`r.get('response_metadata', {}).get('next_cursor')`. -/
structure MembersPage where
  ok : Bool
  members : Finset String
  next_cursor : Option String
deriving DecidableEq

instance {ε α : Type} [DecidableEq ε] [DecidableEq α] :
    DecidableEq (Except ε α) := fun x y =>
  match x, y with
  | .ok a, .ok b =>
    if h : a = b then isTrue (by rw [h])
    else isFalse (fun hh => h (by cases hh; rfl))
  | .error a, .error b =>
    if h : a = b then isTrue (by rw [h])
    else isFalse (fun hh => h (by cases hh; rfl))
  | .ok _, .error _ => isFalse (fun hh => Except.noConfusion hh)
  | .error _, .ok _ => isFalse (fun hh => Except.noConfusion hh)

/-- Result of one `get_members` call: the returned set (or the
`ResponseException` when the response is not ok), whether a remote
request was issued, the set of users for which a synthetic
`Join('member_joined_channel', ...)` event was appended to
`_internalevents` (Python iterates a set, so no order), and the new
cache state. -/
structure GetMembersRes where
  result : Except Unit (Finset String)
  requested : Bool
  joins : Finset String
  state : MState
deriving DecidableEq

/-- slack.py `Slack.get_members` for channel id `id_`, with `page` the
response the remote returns to this call. -/
def get_members (st : MState) (id_ : String) (page : MembersPage) :
    GetMembersRes :=
  let cached := cachedOf st id_
  let cursor := cursorOf st id_
  if cursor = some "" then
    -- "The cursor is fully iterated"
    ⟨Except.ok cached, false, ∅, st⟩
  else if page.ok = false then
    ⟨Except.error (), true, ∅, st⟩
  else
    let newusers := page.members
    -- "Generate all the Join events, if this is not the 1st iteration"
    let joins := if (lookupA st.cache id_).isSome then newusers \ cached else ∅
    let st' : MState :=
      ⟨insertA st.cache id_ (cached ∪ newusers),
       insertA st.cursorMap id_ page.next_cursor⟩
    ⟨Except.ok (cached ∪ newusers), true, joins, st'⟩

/-! ## Self-echo suppression (slack.py `Slack._triage_sent_by_self` and
the suppression test at the top of the `for event in events:` loop of
`Slack.event`). -/

/-- slack.py `Slack._triage_sent_by_self` run at time `now`: collect
every entry with `time() - i >= 10` and remove it. -/
def triage_sent_by_self (now : ℚ) (s : Finset ℚ) : Finset ℚ :=
  s.filter (fun i => ¬(10 ≤ now - i))

/-- The suppression step of `Slack.event`:
`if ts in self._sent_by_self: self._sent_by_self.remove(ts); continue`.
Returns whether the event was dropped and the new set. -/
def eventSuppress (s : Finset ℚ) (ts : ℚ) : Bool × Finset ℚ :=
  if ts ∈ s then (true, s.erase ts) else (false, s)

/-! ## Session (irc.py `Client`) -/

/-- The `Client` state the claims are about: the registration flag
`_usersent`, the held-event queue `_held_events`, and the
`parted_channels` set (channel names as written on the wire, with the
leading '#'). -/
structure CState where
  usersent : Bool
  held : List SEvent
  parted : Finset String
deriving DecidableEq

/-- irc.py `Client.slack_event`: before registration every event is
appended to `_held_events` and nothing is written; after registration
the event is dispatched (`handle` abstracts the per-type dispatch body,
which writes lines and does not change this state). -/
def slack_event (handle : SEvent → List Line) (st : CState) (ev : SEvent) :
    CState × List Line :=
  if st.usersent = false then ({ st with held := st.held ++ [ev] }, [])
  else (st, handle ev)

/-- irc.py `Client._send_chan_info`: the member list (get_members plus
per-user `get_user`, where a failed lookup is skipped, deleted users are
skipped, admins get an '@'), then the JOIN line, RPL_TOPIC 332,
RPL_NAMREPLY 353 and RPL_ENDOFNAMES 366.  `members cid` supplies, for
each member id of the channel, the result of `get_user` (none = the
lookup raised). -/
def send_chan_info (members : String → List (Option User)) (nouserlist : Bool)
    (nick : String) (channel_name : String) (slchan : Channel) : List Line :=
  let userlist : List String :=
    (members slchan.id).foldr
      (fun u? acc =>
        match u? with
        | none => acc
        | some u =>
          if u.deleted then acc
          else ((if u.is_admin then "@" else "") ++ u.name) :: acc)
      []
  let users := match userlist with
    | [] => ""
    | h :: t => t.foldl (fun acc x => acc ++ " " ++ x) h
  [Line.joinLine nick channel_name,
   Line.reply 332 slchan.real_topic [channel_name],
   Line.reply 353 (if nouserlist then "" else users) ["=", channel_name],
   Line.reply 366 "End of NAMES list" [channel_name]]

/-- The mpim-hiding test of irc.py `Client._userhandler`:
`sl_chan.is_mpim and (sl_chan.latest is None or
sl_chan.latest.timestamp < mpim_cutoff)` with
`mpim_cutoff = utcnow() - MPIM_HIDE_DELAY` (50 units). -/
def mpimHidden (now : ℚ) (c : Channel) : Bool :=
  c.is_mpim && (match c.latest with
    | none => true
    | some t => decide (t < now - 50))

/-- The auto-join loop of `Client._userhandler`: skip channels the
account is not a member of, skip hidden mpims, emit channel info for the
rest. -/
def autojoinLines (members : String → List (Option User)) (nouserlist : Bool)
    (nick : String) (now : ℚ) : List Channel → List Line
  | [] => []
  | c :: rest =>
    if c.is_member = false then autojoinLines members nouserlist nick now rest
    else if mpimHidden now c then autojoinLines members nouserlist nick now rest
    else
      send_chan_info members nouserlist nick ("#" ++ c.name_normalized) c
        ++ autojoinLines members nouserlist nick now rest

/-- The flush loop at the end of `_userhandler`:
`for ev in self._held_events: await self.slack_event(ev)` with
`_usersent` already true, followed by `self._held_events = []`. -/
def flushHeld (handle : SEvent → List Line) : List SEvent → List Line
  | [] => []
  | e :: rest => handle e ++ flushHeld handle rest

/-- irc.py `Client._userhandler`: welcome numerics; with auto-join, the
channel-info loop; without it, add every channel name to
`parted_channels`; then set `_usersent`, flush the held events in
arrival order and clear the queue. -/
def userhandler (teamName teamDomain selfName : String)
    (autojoin nouserlist : Bool) (now : ℚ) (chans : List Channel)
    (members : String → List (Option User)) (handle : SEvent → List Line)
    (nick : String) (st : CState) : CState × List Line :=
  let welcome : List Line :=
    [Line.reply 1 "Welcome to localslackirc" [],
     Line.reply 2 ("Your team name is: " ++ teamName) [],
     Line.reply 2 ("Your team domain is: " ++ teamDomain) [],
     Line.reply 2 ("Your nickname must be: " ++ selfName) [],
     Line.reply 251 "There are 1 users and 0 services on 1 server" []]
  let joins :=
    if autojoin then autojoinLines members nouserlist nick now chans else []
  let parted' :=
    if autojoin then st.parted
    else chans.foldl (fun p c => insert ("#" ++ c.name_normalized) p) st.parted
  let flushed := flushHeld handle st.held
  (⟨true, [], parted'⟩, welcome ++ joins ++ flushed)

/-- The two kinds of steps the session takes for claims C7/C9: a
normalized event arriving from the slack side, or the USER command. -/
inductive COp where
  | sev (e : SEvent)
  | userCmd

/-- The per-session constants of the step function. -/
structure SessionParams where
  teamName : String
  teamDomain : String
  selfName : String
  nick : String
  autojoin : Bool
  nouserlist : Bool
  now : ℚ
  chans : List Channel
  members : String → List (Option User)
  handle : SEvent → List Line

/-- One session step. -/
def stepC (P : SessionParams) (st : CState) : COp → CState × List Line
  | .sev e => slack_event P.handle st e
  | .userCmd =>
    userhandler P.teamName P.teamDomain P.selfName P.autojoin P.nouserlist
      P.now P.chans P.members P.handle P.nick st

/-- Run a sequence of session steps, accumulating the written lines. -/
def runC (P : SessionParams) : CState → List COp → CState × List Line
  | st, [] => (st, [])
  | st, op :: ops =>
    let p := stepC P st op
    let q := runC P p.1 ops
    (q.1, p.2 ++ q.2)

/-! ## JOIN (irc.py `Client._joinhandler`) -/

/-- irc.py `Client._joinhandler` on the channel-name argument
`channel_name_b` (with its leading '#').  Before anything else the name
is discarded from `parted_channels`; then the name (without '#') is
resolved (`resolve`; none = `get_channel_by_name` raised), a
`conversations.join` call is issued when the channel is not already a
member (`joinOk` = whether that call succeeds), and `_send_chan_info`
runs (`chanInfo`; none = it raised).  Result: the lines written, the new
parted set, and whether a join request was sent to the remote. -/
def joinhandler (resolve : String → Option Channel) (joinOk : Bool)
    (chanInfo : Channel → Option (List Line)) (parted : Finset String)
    (channel_name_b : String) : List Line × Finset String × Bool :=
  let parted1 := parted.erase channel_name_b
  let channel_name := strDropL 1 channel_name_b
  match resolve channel_name with
  | none =>
    ([Line.reply 403 ("Unable to find channel: " ++ channel_name) []],
     parted1, false)
  | some slchan =>
    let joinReq := !slchan.is_member
    let joinFailOut : List Line :=
      if slchan.is_member then []
      else if joinOk then []
      else [Line.reply 403 ("Unable to join server channel: " ++ channel_name) []]
    match chanInfo slchan with
    | some ls => (joinFailOut ++ ls, parted1, joinReq)
    | none =>
      (joinFailOut
        ++ [Line.reply 403 ("Unable to join channel: " ++ channel_name) []],
       parted1, joinReq)

/-! ## WHOIS (irc.py `Client._whoishandler`) -/

/-- irc.py `Client._whoishandler` on the raw command line `cmd`
(e.g. "whois bob").  `users = cmd.split(b' '); del users[0]`; a warning
numeric for more than one target; `username = users.pop()` (IndexError
when empty); a warning for wildcards; then
`try: user = get_user_by_name(...) except KeyError: sendreply(401)` —
after which the source unconditionally evaluates `user.real_name`, which
raises UnboundLocalError when the lookup failed.  Returns the lines
written before returning or crashing, and whether the handler raised. -/
def whoishandler (resolve : String → Option User) (cmd : String) :
    List Line × Bool :=
  let users := (splitChar ' ' cmd).tail
  let w1 : List Line :=
    if users.length > 1
    then [Line.reply 421 "Server parameter is not supported" []] else []
  match users.getLast? with
  | none => (w1, true)
  | some username =>
    let w2 : List Line :=
      if username.toList.contains '*'
      then [Line.reply 421 "Wildcards are not supported" []] else []
    match resolve username with
    | none =>
      (w1 ++ w2 ++ [Line.reply 401 ("Unknown user " ++ username) []], true)
    | some user =>
      let emailLine : List Line :=
        match user.profile.email with
        | some e => [Line.reply 311 ("email: " ++ e) [username, "", "localhost"]]
        | none => []
      let operLine : List Line :=
        if user.is_admin
        then [Line.reply 313 (username ++ " is an IRC operator") [username]]
        else []
      (w1 ++ w2
        ++ [Line.reply 311 user.real_name [username, "", "localhost"]]
        ++ emailLine ++ operLine
        ++ [Line.reply 318 "" [username]], false)

/-! ## PRIVMSG and the command loop (irc.py `Client._privmsghandler`,
`from_irc`) -/

/-- Observable outcome of `_privmsghandler`: what was sent where, or
that the unresolved-user failure was caught and logged, or that an
exception escaped the handler. -/
structure PrivmsgRes where
  sentChannel : Option (String × String × Bool) := none
  sentUser : Option (String × String × Bool) := none
  loggedDrop : Bool := false
  crashed : Bool := false
deriving DecidableEq

/-- irc.py `Client._privmsghandler` on destination `dest` and message
payload `msg0`: strips the leading ':', unwraps the control-delimited
ACTION marker, applies `_addmagic` (abstracted as `addmagic`), then for
a '#' destination resolves the channel and sends (both *outside* any
try block — a failure escapes), and for a nick destination resolves the
user and sends inside a try/except that logs and drops on failure. -/
def privmsghandler (addmagic : String → String)
    (chanByName : String → Option Channel) (userByName : String → Option User)
    (dest msg0 : String) : PrivmsgRes :=
  let msg1 := if strStartsWith msg0 ":" then strDropL 1 msg0 else msg0
  let isAct := strStartsWith msg1 "\x01ACTION " && strEndsWith msg1 "\x01"
  let body :=
    if isAct then String.mk ((strDropL 8 msg1).toList.dropLast) else msg1
  let message := addmagic body
  if strStartsWith dest "#" then
    match chanByName (strDropL 1 dest) with
    | none => { crashed := true }
    | some c => { sentChannel := some (c.id, message, isAct) }
  else
    match userByName dest with
    | none => { loggedDrop := true }
    | some u => { sentUser := some (u.id, message, isAct) }

/-- How the session's driving loop ends. -/
inductive SessionEnd where
  | disconnect
  | crash
deriving DecidableEq

/-- One iteration of irc.py `from_irc`: only `reader.readline()` is
inside the try (a read failure raises the clean `IrcDisconnectError`);
`await ircclient.command(cmd)` is *outside* it, so an exception escaping
a command handler propagates and ends the session.  `handlerOut` /
`handlerCrashed` are the lines the handler wrote before returning or
raising, and whether it raised. -/
def fromIrcStep (readOk : Bool) (handlerOut : List Line)
    (handlerCrashed : Bool) : List Line × Option SessionEnd :=
  if readOk = false then ([], some SessionEnd.disconnect)
  else if handlerCrashed then (handlerOut, some SessionEnd.crash)
  else (handlerOut, none)

/-! ## Message delivery (irc.py `Client._message`) -/

/-- The two failure modes of `Slack.get_channel` as seen by `_message`:
`KeyError` (unknown channel id, e.g. a direct-message channel id) is
caught and redirects the message to the session's own nick; any other
exception is caught, logged and the message dropped. -/
inductive ChanErr where
  | keyError
  | otherErr
deriving DecidableEq

/-- irc.py `Client._message`: resolve the source user (`getUserName`;
none = `get_user` raised, which escapes the handler — modelled as the
outer `none`), resolve the destination channel (KeyError ⇒ the user's
own nick), drop if the destination was parted, then send one PRIVMSG
per non-empty line of `prefixStr + text` after `parse_message`
(abstracted as `parse`), wrapping ACTION messages in the control
marker. -/
def message_fn (getUserName : String → Option String)
    (getChan : String → Except ChanErr Channel) (parse : String → String)
    (nick : String) (parted : Finset String) (isBot isAction : Bool)
    (userId channelId text prefixStr : String) : Option (List Line) :=
  let source? := if isBot then some "bot" else getUserName userId
  match source? with
  | none => none
  | some source =>
    let deliver : String → Option (List Line) := fun dest =>
      if dest ∈ parted then some []
      else
        some (((splitChar '\n' (prefixStr ++ text)).filter
            (fun m => !(m == ""))).map
          (fun m =>
            let i := parse m
            let i := if isAction then "\x01ACTION " ++ i ++ "\x01" else i
            Line.privmsg source dest i))
    match getChan channelId with
    | .error .otherErr => some []
    | .error .keyError => deliver nick
    | .ok c => deliver ("#" ++ c.name)

/-! # Theorems -/

/-! ## C4 — reconnect backoff -/

/-- C4: the claim says the delay before the n-th retry doubles per
consecutive failure (1, 2, 4, ...) capped at 120.  The code sleeps 1
unit before *every* retry, because `sleeptime` is a local variable of
`Slack.event` re-initialized to 1 on each call and the doubled value is
never stored (the source comments `#FIXME this sleeptime thing is
broken`).  First conjunct: the delays over any run of consecutive
failures are all 1.  Second conjunct: what the claim would require for
the first three retries. -/
theorem C4_backoff_broken :
    (∀ (st : SlackPersist) (n : Nat),
      consecutiveFailureDelays st n = List.replicate n 1) ∧
    (List.range 3).map claimedBackoffDelay = [1, 2, 4] := by
  constructor
  · intro st n
    induction n generalizing st with
    | zero => rfl
    | succ k ih =>
      simp [consecutiveFailureDelays, eventConnectFailure, List.replicate, ih]
  · decide

/-! ## C6 — self-echo suppression set -/

/-- C6: an entry of the suppression set is removed at most once — by
matching an incoming event with that timestamp (the event is dropped
and the removal does not change whether any *other* timestamp is
suppressed), or by the time purge, which removes exactly the entries at
least 10 units old; after a match-removal the purge cannot remove the
same entry again (it is already absent). -/
theorem C6_suppression_lifecycle :
    (∀ (s : Finset ℚ) (ts : ℚ), ts ∈ s →
      eventSuppress s ts = (true, s.erase ts) ∧ ts ∉ (eventSuppress s ts).2) ∧
    (∀ (s : Finset ℚ) (ts ts' : ℚ), ts' ≠ ts →
      ((ts' ∈ (eventSuppress s ts).2) ↔ ts' ∈ s)) ∧
    (∀ (now : ℚ) (s : Finset ℚ) (i : ℚ), i ∈ s →
      (i ∈ triage_sent_by_self now s ↔ now - i < 10)) ∧
    (∀ (now : ℚ) (s : Finset ℚ) (ts : ℚ),
      ts ∉ triage_sent_by_self now (eventSuppress s ts).2) := by
  refine ⟨?_, ?_, ?_, ?_⟩
  · intro s ts h
    refine ⟨by simp [eventSuppress, h], by simp [eventSuppress, h]⟩
  · intro s ts ts' hne
    by_cases h : ts ∈ s
    · simp [eventSuppress, h, Finset.mem_erase, hne]
    · simp [eventSuppress, h]
  · intro now s i hi
    simp [triage_sent_by_self, Finset.mem_filter, hi, not_le]
  · intro now s ts
    by_cases h : ts ∈ s
    · simp [eventSuppress, h, triage_sent_by_self, Finset.mem_filter]
    · simp [eventSuppress, h, triage_sent_by_self, Finset.mem_filter, h]

/-- C6 witness: the suppression lifecycle at concrete values
(set `{3}`, matching timestamp 3, other timestamp 4, purge at time 20). -/
theorem C6_suppression_lifecycle_witness :
    (eventSuppress {(3 : ℚ)} 3 = (true, ({(3 : ℚ)} : Finset ℚ).erase 3) ∧
      (3 : ℚ) ∉ (eventSuppress {(3 : ℚ)} 3).2) ∧
    (((4 : ℚ) ∈ (eventSuppress {(3 : ℚ), 4} 3).2) ↔
      (4 : ℚ) ∈ ({(3 : ℚ), 4} : Finset ℚ)) ∧
    ((3 : ℚ) ∈ triage_sent_by_self 20 {(3 : ℚ)} ↔ (20 : ℚ) - 3 < 10) ∧
    ((3 : ℚ) ∉ triage_sent_by_self 20 (eventSuppress {(3 : ℚ)} 3).2) :=
  ⟨C6_suppression_lifecycle.1 _ _ (by decide),
   C6_suppression_lifecycle.2.1 _ _ _ (by decide),
   C6_suppression_lifecycle.2.2.1 _ _ _ (by decide),
   C6_suppression_lifecycle.2.2.2 20 _ 3⟩

/-! ## C5 — membership cache pagination -/

theorem lookupA_insertA_self {α : Type} (m : List (String × α)) (k : String)
    (v : α) : lookupA (insertA m k v) k = some v := by
  simp [lookupA, insertA, List.find?]

/-- C5: a membership fetch with the exhausted sentinel cursor returns
the cached set with no remote request, no events and no state change; a
first fetch (channel not in the cache) synthesizes no join events and
returns the merged set; any later fetch synthesizes a join event
exactly for each newly seen id, returns the cumulative set and stores
it. -/
theorem C5_get_members_pagination :
    (∀ (st : MState) (id_ : String) (page : MembersPage),
      cursorOf st id_ = some "" →
        get_members st id_ page = ⟨Except.ok (cachedOf st id_), false, ∅, st⟩) ∧
    (∀ (st : MState) (id_ : String) (page : MembersPage),
      page.ok = true → cursorOf st id_ ≠ some "" →
      lookupA st.cache id_ = none →
        (get_members st id_ page).joins = ∅ ∧
        (get_members st id_ page).result
          = Except.ok (cachedOf st id_ ∪ page.members) ∧
        (get_members st id_ page).requested = true) ∧
    (∀ (st : MState) (id_ : String) (page : MembersPage),
      page.ok = true → cursorOf st id_ ≠ some "" →
      (lookupA st.cache id_).isSome = true →
        (get_members st id_ page).joins = page.members \ cachedOf st id_ ∧
        (get_members st id_ page).result
          = Except.ok (cachedOf st id_ ∪ page.members) ∧
        (get_members st id_ page).requested = true ∧
        cachedOf (get_members st id_ page).state id_
          = cachedOf st id_ ∪ page.members) := by
  refine ⟨?_, ?_, ?_⟩
  · intro st id_ page h
    simp [get_members, h]
  · intro st id_ page hok hcur hnone
    simp [get_members, hcur, hok, hnone]
  · intro st id_ page hok hcur hsome
    refine ⟨?_, ?_, ?_, ?_⟩ <;>
      simp [get_members, hcur, hok, hsome, cachedOf, lookupA_insertA_self]

/-- C5 witness: a second page on a channel with a cached first page, a
first page on an unknown channel, and a sentinel-cursor call. -/
theorem C5_get_members_pagination_witness :
    (get_members ⟨[("C", {"u1"})], [("C", some "")]⟩ "C"
        ⟨true, {"u9"}, none⟩
      = ⟨Except.ok (cachedOf ⟨[("C", {"u1"})], [("C", some "")]⟩ "C"), false, ∅,
         ⟨[("C", {"u1"})], [("C", some "")]⟩⟩) ∧
    ((get_members ⟨[], []⟩ "C" ⟨true, {"u1", "u2"}, some "cur"⟩).joins = ∅ ∧
      (get_members ⟨[], []⟩ "C" ⟨true, {"u1", "u2"}, some "cur"⟩).result
        = Except.ok (cachedOf (⟨[], []⟩ : MState) "C" ∪ {"u1", "u2"}) ∧
      (get_members ⟨[], []⟩ "C" ⟨true, {"u1", "u2"}, some "cur"⟩).requested = true) ∧
    ((get_members ⟨[("C", {"u1"})], [("C", some "cur")]⟩ "C"
        ⟨true, {"u1", "u2"}, some ""⟩).joins
        = {"u1", "u2"} \ cachedOf ⟨[("C", {"u1"})], [("C", some "cur")]⟩ "C" ∧
      (get_members ⟨[("C", {"u1"})], [("C", some "cur")]⟩ "C"
        ⟨true, {"u1", "u2"}, some ""⟩).result
        = Except.ok (cachedOf ⟨[("C", {"u1"})], [("C", some "cur")]⟩ "C" ∪ {"u1", "u2"}) ∧
      (get_members ⟨[("C", {"u1"})], [("C", some "cur")]⟩ "C"
        ⟨true, {"u1", "u2"}, some ""⟩).requested = true ∧
      cachedOf (get_members ⟨[("C", {"u1"})], [("C", some "cur")]⟩ "C"
        ⟨true, {"u1", "u2"}, some ""⟩).state "C"
        = cachedOf ⟨[("C", {"u1"})], [("C", some "cur")]⟩ "C" ∪ {"u1", "u2"}) :=
  ⟨C5_get_members_pagination.1 _ "C" _ (by decide),
   C5_get_members_pagination.2.1 _ "C" _ (by decide) (by decide) (by decide),
   C5_get_members_pagination.2.2 _ "C" _ (by decide) (by decide) (by decide)⟩

/-! ## C7 — held-event queue -/

/-- C7: every event arriving before registration is appended to the
held queue (in arrival order) and nothing is written; the USER command
empties the queue, sets the registration flag, and its output ends with
the held events' outputs in exact arrival (FIFO) order; from any
registered state with an empty queue, no sequence of further steps ever
holds an event again. -/
theorem C7_held_queue :
    (∀ (P : SessionParams) (st : CState) (es : List SEvent),
      st.usersent = false →
        runC P st (es.map COp.sev) = ({ st with held := st.held ++ es }, [])) ∧
    (∀ (P : SessionParams) (st : CState),
      (stepC P st COp.userCmd).1.held = [] ∧
      (stepC P st COp.userCmd).1.usersent = true ∧
      ∃ before, (stepC P st COp.userCmd).2
        = before ++ flushHeld P.handle st.held) ∧
    (∀ (P : SessionParams) (st : CState) (ops : List COp),
      st.usersent = true → st.held = [] →
        (runC P st ops).1.usersent = true ∧ (runC P st ops).1.held = []) := by
  refine ⟨?_, ?_, ?_⟩
  · intro P st es
    induction es generalizing st with
    | nil => intro h; simp [runC]
    | cons e t ih =>
      intro h
      simp only [List.map_cons, runC, stepC, slack_event, h, if_pos]
      rw [ih ⟨false, st.held ++ [e], st.parted⟩ rfl]
      simp
  · intro P st
    refine ⟨rfl, rfl, ?_⟩
    simp only [stepC, userhandler]
    exact ⟨_, rfl⟩
  · intro P st ops
    induction ops generalizing st with
    | nil => intro h1 h2; exact ⟨h1, h2⟩
    | cons op t ih =>
      intro h1 h2
      cases op with
      | sev e =>
        simp only [runC, stepC, slack_event, h1]
        exact ih st h1 h2
      | userCmd =>
        simp only [runC, stepC, userhandler]
        exact ih _ rfl rfl

/-- Session parameters used by the C7 witness. -/
def c7Params : SessionParams :=
  ⟨"t", "d", "s", "me", false, true, 0, [], fun _ => [], fun _ => []⟩

/-- C7 witness: two events held in order pre-registration; the USER step
clears and flushes the queue; a post-registration trace never refills
it. -/
theorem C7_held_queue_witness :
    (runC c7Params ⟨false, [], ∅⟩
        ([SEvent.message "C" "U" "x", SEvent.join "U" "C"].map COp.sev)
      = (⟨false, [SEvent.message "C" "U" "x", SEvent.join "U" "C"], ∅⟩, [])) ∧
    ((stepC c7Params ⟨false, [SEvent.message "C" "U" "x"], ∅⟩ COp.userCmd).1.held
        = [] ∧
      (stepC c7Params ⟨false, [SEvent.message "C" "U" "x"], ∅⟩
          COp.userCmd).1.usersent = true ∧
      ∃ before,
        (stepC c7Params ⟨false, [SEvent.message "C" "U" "x"], ∅⟩ COp.userCmd).2
          = before ++ flushHeld c7Params.handle [SEvent.message "C" "U" "x"]) ∧
    ((runC c7Params ⟨true, [], ∅⟩
        [COp.sev (SEvent.join "U" "C"), COp.userCmd]).1.usersent = true ∧
      (runC c7Params ⟨true, [], ∅⟩
        [COp.sev (SEvent.join "U" "C"), COp.userCmd]).1.held = []) :=
  ⟨C7_held_queue.1 c7Params ⟨false, [], ∅⟩ _ rfl,
   C7_held_queue.2.1 c7Params ⟨false, [SEvent.message "C" "U" "x"], ∅⟩,
   C7_held_queue.2.2 c7Params ⟨true, [], ∅⟩ _ rfl rfl⟩

/-! ## C9 — USER registration auto-join -/

/-- An mpim channel the account is a member of, with no recorded
activity at all (`latest is None`). -/
def mpimNoActivity : Channel :=
  { id := "G1", name_normalized := "friends", purpose := ⟨""⟩, topic := ⟨""⟩,
    is_member := true, is_mpim := true, latest := none }

/-- C9 counterexample: the claim says a multi-party-direct channel with
no recorded activity at all is *not* skipped.  In the code the hiding
test is `sl_chan.is_mpim and (sl_chan.latest is None or ...)`, so a
member mpim channel with `latest = None` produces no channel info at
all during the auto-join loop. -/
theorem C9_counterexample :
    autojoinLines (fun _ => []) true "me" 1000 [mpimNoActivity] = [] ∧
    mpimNoActivity.is_member = true ∧ mpimNoActivity.is_mpim = true ∧
    mpimNoActivity.latest = none := by
  decide

theorem foldl_insert_eq_union {α β : Type} [DecidableEq β] (f : α → β)
    (l : List α) (p : Finset β) :
    l.foldl (fun acc c => insert (f c) acc) p = p ∪ (l.map f).toFinset := by
  induction l generalizing p with
  | nil => simp
  | cons c t ih =>
    simp only [List.foldl_cons, List.map_cons, List.toFinset_cons, ih]
    rw [Finset.union_insert, Finset.insert_union]

/-- C9 amended: during USER handling with auto-join enabled, channel
info (JOIN + topic + member list) is emitted exactly for the channels
the account is a member of that are not hidden mpims, where an mpim is
hidden when its last activity is older than 50 units **or** when no
activity is recorded at all; with auto-join disabled (and no held
events), every remote channel name is added to the parted set and no
JOIN line is emitted. -/
theorem C9_amended :
    (∀ (members : String → List (Option User)) (nouserlist : Bool)
       (nick : String) (now : ℚ) (chans : List Channel),
      autojoinLines members nouserlist nick now chans
        = concatMap
            (fun c =>
              send_chan_info members nouserlist nick ("#" ++ c.name_normalized) c)
            (chans.filter (fun c => c.is_member && !(mpimHidden now c)))) ∧
    (∀ (teamName teamDomain selfName nick : String) (nouserlist : Bool)
       (now : ℚ) (chans : List Channel)
       (members : String → List (Option User)) (handle : SEvent → List Line)
       (st : CState),
      st.held = [] →
        (∀ l ∈ (userhandler teamName teamDomain selfName false nouserlist now
            chans members handle nick st).2, isJoinLine l = false) ∧
        (userhandler teamName teamDomain selfName false nouserlist now chans
            members handle nick st).1.parted
          = st.parted ∪ (chans.map (fun c => "#" ++ c.name_normalized)).toFinset) := by
  constructor
  · intro members nouserlist nick now chans
    induction chans with
    | nil => rfl
    | cons c t ih =>
      by_cases h1 : c.is_member = false
      · simp [autojoinLines, h1, List.filter, ih]
      · have h1' : c.is_member = true := by
          cases hm : c.is_member
          · exact absurd hm h1
          · rfl
        by_cases h2 : mpimHidden now c = true
        · simp [autojoinLines, h1', h2, List.filter, ih]
        · have h2' : mpimHidden now c = false := by
            cases hm : mpimHidden now c
            · rfl
            · exact absurd hm h2
          simp [autojoinLines, h1', h2', List.filter, ih, concatMap]
  · intro teamName teamDomain selfName nick nouserlist now chans members handle
      st hheld
    constructor
    · intro l hl
      simp only [userhandler, hheld, flushHeld] at hl
      simp only [Bool.false_eq_true, if_false, List.append_nil, List.mem_cons,
        List.not_mem_nil, or_false] at hl
      rcases hl with rfl | rfl | rfl | rfl | rfl <;> rfl
    · simp only [userhandler, Bool.false_eq_true, if_neg, not_false_eq_true]
      exact foldl_insert_eq_union _ chans st.parted

/-- C9 amended witness: one visible channel and one hidden mpim under
auto-join, and the parted-marking path with auto-join disabled. -/
theorem C9_amended_witness :
    (autojoinLines (fun _ => []) true "me" 1000
        [⟨"C1", "general", ⟨""⟩, ⟨""⟩, 0, true, true, false, false, none⟩,
         ⟨"G1", "friends", ⟨""⟩, ⟨""⟩, 0, true, false, false, true, some 100⟩]
      = concatMap
          (fun c =>
            send_chan_info (fun _ => []) true "me" ("#" ++ c.name_normalized) c)
          (([⟨"C1", "general", ⟨""⟩, ⟨""⟩, 0, true, true, false, false, none⟩,
             ⟨"G1", "friends", ⟨""⟩, ⟨""⟩, 0, true, false, false, true,
               some 100⟩] : List Channel).filter
            (fun c => c.is_member && !(mpimHidden 1000 c)))) ∧
    ((∀ l ∈ (userhandler "t" "d" "s" false true 1000
        [⟨"C1", "general", ⟨""⟩, ⟨""⟩, 0, true, true, false, false, none⟩]
        (fun _ => []) (fun _ => []) "me" ⟨false, [], ∅⟩).2,
        isJoinLine l = false) ∧
      (userhandler "t" "d" "s" false true 1000
        [⟨"C1", "general", ⟨""⟩, ⟨""⟩, 0, true, true, false, false, none⟩]
        (fun _ => []) (fun _ => []) "me" ⟨false, [], ∅⟩).1.parted
        = (∅ : Finset String) ∪
          (([⟨"C1", "general", ⟨""⟩, ⟨""⟩, 0, true, true, false, false,
              none⟩] : List Channel).map
            (fun c => "#" ++ c.name_normalized)).toFinset) :=
  ⟨C9_amended.1 (fun _ => []) true "me" 1000 _,
   C9_amended.2 "t" "d" "s" "me" true 1000 _ (fun _ => []) (fun _ => [])
     ⟨false, [], ∅⟩ rfl⟩

/-! ## C10 — unresolved channel id falls back to a private message -/

/-- C10: when the channel lookup for a message-family event raises the
not-found error (as for direct-message channel ids), `_message` does not
drop the message: every non-empty line is written as a PRIVMSG whose
destination is the session's own nickname. -/
theorem C10_dm_fallback (getUserName : String → Option String)
    (getChan : String → Except ChanErr Channel) (parse : String → String)
    (nick : String) (parted : Finset String)
    (userId channelId text prefixStr src : String)
    (hU : getUserName userId = some src)
    (hC : getChan channelId = Except.error ChanErr.keyError)
    (hp : nick ∉ parted) :
    message_fn getUserName getChan parse nick parted false false userId
        channelId text prefixStr
      = some (((splitChar '\n' (prefixStr ++ text)).filter
            (fun m => !(m == ""))).map
          (fun m => Line.privmsg src nick (parse m))) ∧
    (((splitChar '\n' (prefixStr ++ text)).filter (fun m => !(m == ""))) ≠ [] →
      message_fn getUserName getChan parse nick parted false false userId
          channelId text prefixStr ≠ some []) := by
  have hmain : message_fn getUserName getChan parse nick parted false false
      userId channelId text prefixStr
      = some (((splitChar '\n' (prefixStr ++ text)).filter
            (fun m => !(m == ""))).map
          (fun m => Line.privmsg src nick (parse m))) := by
    simp [message_fn, hU, hC, hp]
  refine ⟨hmain, ?_⟩
  intro hne
  rw [hmain]
  intro hcontr
  apply hne
  have := Option.some.inj hcontr
  exact List.map_eq_nil_iff.mp this

/-- C10 witness: a two-line message on an unknown channel id reaches the
client as two PRIVMSGs addressed to the user's own nick. -/
theorem C10_dm_fallback_witness :
    message_fn (fun _ => some "alice") (fun _ => Except.error ChanErr.keyError)
        (fun s => s) "me" ∅ false false "U1" "D1" "hi\nthere" ""
      = some [Line.privmsg "alice" "me" "hi", Line.privmsg "alice" "me" "there"] ∧
    message_fn (fun _ => some "alice") (fun _ => Except.error ChanErr.keyError)
        (fun s => s) "me" ∅ false false "U1" "D1" "hi\nthere" "" ≠ some [] :=
  ⟨(C10_dm_fallback (fun _ => some "alice")
      (fun _ => Except.error ChanErr.keyError) (fun s => s) "me" ∅ "U1" "D1"
      "hi\nthere" "" "alice" rfl rfl (by decide)).1,
   (C10_dm_fallback (fun _ => some "alice")
      (fun _ => Except.error ChanErr.keyError) (fun s => s) "me" ∅ "U1" "D1"
      "hi\nthere" "" "alice" rfl rfl (by decide)).2 (by decide)⟩

/-! ## C2 — WHOIS on an unresolved nick -/

/-- C2 counterexample: the claim says an unresolved WHOIS emits the
no-such-nick numeric and then *still* emits the end-of-whois marker.
On `whois bob` with no such user, the handler emits only the 401
numeric and then raises (the source reads the unbound `user` local
after the except branch), so no 318 marker is written. -/
theorem C2_counterexample :
    whoishandler (fun _ => none) "whois bob"
      = ([Line.reply 401 "Unknown user bob" []], true) ∧
    ((whoishandler (fun _ => none) "whois bob").1.all
      fun l => !(isEndOfWhois l)) = true := by
  decide

/-- C2 amended: a WHOIS whose nick does not resolve emits the
no-such-nick numeric and then the handler raises before reaching the
end-of-whois marker, which is therefore never emitted for an unresolved
nick; the end-of-whois marker (referencing the nick) is emitted, as the
final line, exactly when the nick resolves. -/
theorem C2_amended :
    (∀ (resolve : String → Option User) (cmd username : String),
      ((splitChar ' ' cmd).tail).getLast? = some username →
      resolve username = none →
        (whoishandler resolve cmd).2 = true ∧
        Line.reply 401 ("Unknown user " ++ username) []
          ∈ (whoishandler resolve cmd).1 ∧
        ∀ l ∈ (whoishandler resolve cmd).1, isEndOfWhois l = false) ∧
    (∀ (resolve : String → Option User) (cmd username : String) (u : User),
      ((splitChar ' ' cmd).tail).getLast? = some username →
      resolve username = some u →
        (whoishandler resolve cmd).2 = false ∧
        (whoishandler resolve cmd).1.getLast?
          = some (Line.reply 318 "" [username])) := by
  constructor
  · intro resolve cmd username hlast hres
    refine ⟨?_, ?_, ?_⟩
    · simp [whoishandler, hlast, hres]
    · simp [whoishandler, hlast, hres]
    · intro l hl
      simp only [whoishandler, hlast, hres] at hl
      rcases List.mem_append.mp hl with h | h
      · rcases List.mem_append.mp h with h' | h'
        · rcases Decidable.em ((splitChar ' ' cmd).tail.length > 1) with h1 | h1
          · rw [if_pos h1] at h'
            rcases List.mem_singleton.mp h' with rfl; rfl
          · rw [if_neg h1] at h'
            exact absurd h' (List.not_mem_nil l)
        · rcases Decidable.em (username.toList.contains '*' = true) with h2 | h2
          · rw [if_pos h2] at h'
            rcases List.mem_singleton.mp h' with rfl; rfl
          · rw [if_neg h2] at h'
            exact absurd h' (List.not_mem_nil l)
      · rcases List.mem_singleton.mp h with rfl; rfl
  · intro resolve cmd username u hlast hres
    refine ⟨?_, ?_⟩
    · simp [whoishandler, hlast, hres]
    · simp only [whoishandler, hlast, hres]
      rw [List.getLast?_concat]

/-- C2 amended witness: `whois bob` with `bob` unresolved (401 then
crash, no 318), and `whois alice` resolved (no crash, final line is the
318 marker referencing alice). -/
theorem C2_amended_witness :
    ((whoishandler (fun _ => none) "whois bob").2 = true ∧
      Line.reply 401 ("Unknown user " ++ "bob") []
        ∈ (whoishandler (fun _ => none) "whois bob").1 ∧
      ∀ l ∈ (whoishandler (fun _ => none) "whois bob").1,
        isEndOfWhois l = false) ∧
    ((whoishandler
        (fun _ => some ⟨"U2", "alice", ⟨"Alice A", none, ""⟩, false, false⟩)
        "whois alice").2 = false ∧
      (whoishandler
        (fun _ => some ⟨"U2", "alice", ⟨"Alice A", none, ""⟩, false, false⟩)
        "whois alice").1.getLast?
        = some (Line.reply 318 "" ["alice"])) :=
  ⟨C2_amended.1 (fun _ => none) "whois bob" "bob" (by decide) rfl,
   C2_amended.2
     (fun _ => some ⟨"U2", "alice", ⟨"Alice A", none, ""⟩, false, false⟩)
     "whois alice" "alice" ⟨"U2", "alice", ⟨"Alice A", none, ""⟩, false, false⟩
     (by decide) rfl⟩

/-! ## C3 — JOIN failure -/

/-- C3 counterexample: the claim says a failing JOIN makes no state
change ("the parted-channel set is identical before and after").  On
`JOIN #secret` with the name unresolvable and `#secret` in the parted
set, the handler first removes the name from the parted set, so the set
changes from `{#secret}` to `∅` — while indeed emitting exactly one
no-such-channel numeric, writing no JOIN line and sending no join
request. -/
theorem C3_counterexample :
    (joinhandler (fun _ => none) true (fun _ => none) {"#secret"}
        "#secret").2.1 = (∅ : Finset String) ∧
    (joinhandler (fun _ => none) true (fun _ => none) {"#secret"}
        "#secret").2.1 ≠ ({"#secret"} : Finset String) ∧
    (joinhandler (fun _ => none) true (fun _ => none) {"#secret"}
        "#secret").1
      = [Line.reply 403 "Unable to find channel: secret" []] ∧
    (joinhandler (fun _ => none) true (fun _ => none) {"#secret"}
        "#secret").2.2 = false := by
  decide

/-- C3 amended: on a JOIN whose channel name fails to resolve the
Session emits exactly one no-such-channel numeric, writes no JOIN line
and sends no join request, but the channel name has already been
removed from the parted set (the only state change); when the name
resolves but the remote join call fails, a no-such-channel numeric is
emitted and the handler still proceeds to emit the channel info. -/
theorem C3_amended :
    (∀ (resolve : String → Option Channel) (joinOk : Bool)
       (chanInfo : Channel → Option (List Line)) (parted : Finset String)
       (ch : String),
      resolve (strDropL 1 ch) = none →
        joinhandler resolve joinOk chanInfo parted ch
          = ([Line.reply 403 ("Unable to find channel: " ++ strDropL 1 ch) []],
             parted.erase ch, false)) ∧
    (∀ (resolve : String → Option Channel)
       (chanInfo : Channel → Option (List Line)) (parted : Finset String)
       (ch : String) (c : Channel) (ls : List Line),
      resolve (strDropL 1 ch) = some c → c.is_member = false →
      chanInfo c = some ls →
        joinhandler resolve false chanInfo parted ch
          = (Line.reply 403
                ("Unable to join server channel: " ++ strDropL 1 ch) [] :: ls,
             parted.erase ch, true)) := by
  constructor
  · intro resolve joinOk chanInfo parted ch h
    simp [joinhandler, h]
  · intro resolve chanInfo parted ch c ls hres hmem hinfo
    simp [joinhandler, hres, hmem, hinfo]

/-- C3 amended witness: `JOIN #secret` failing to resolve with
`#secret` parted, and `JOIN #priv` resolving to a non-member channel
whose remote join call fails. -/
theorem C3_amended_witness :
    (joinhandler (fun _ => none) true (fun _ => none) {"#secret"} "#secret"
      = ([Line.reply 403 ("Unable to find channel: " ++ strDropL 1 "#secret") []],
         ({"#secret"} : Finset String).erase "#secret", false)) ∧
    (joinhandler
        (fun _ => some ⟨"C7", "priv", ⟨""⟩, ⟨""⟩, 0, false, true, false, false,
          none⟩)
        false (fun _ => some [Line.joinLine "me" "#priv"]) ∅ "#priv"
      = (Line.reply 403 ("Unable to join server channel: " ++ strDropL 1 "#priv")
            [] :: [Line.joinLine "me" "#priv"],
         (∅ : Finset String).erase "#priv", true)) :=
  ⟨C3_amended.1 (fun _ => none) true (fun _ => none) {"#secret"} "#secret" rfl,
   C3_amended.2
     (fun _ => some ⟨"C7", "priv", ⟨""⟩, ⟨""⟩, 0, false, true, false, false,
       none⟩)
     (fun _ => some [Line.joinLine "me" "#priv"]) ∅ "#priv"
     ⟨"C7", "priv", ⟨""⟩, ⟨""⟩, 0, false, true, false, false, none⟩
     [Line.joinLine "me" "#priv"] rfl rfl rfl⟩

/-! ## C8 — failure containment -/

/-- C8 counterexample: the claim says every per-command failure is
caught within that command's own handling scope and does not terminate
the session.  A WHOIS on an unresolved nick raises out of the handler,
and the command loop (`from_irc`) wraps only the socket read in its try
block, so the exception ends the session. -/
theorem C8_counterexample :
    (fromIrcStep true (whoishandler (fun _ => none) "whois bob").1
        (whoishandler (fun _ => none) "whois bob").2).2
      = some SessionEnd.crash := by
  decide

/-- C8 amended: a failed socket read raises the clean disconnect
signal, but an exception escaping a command handler is *not* caught by
the command loop and terminates the session; containment at the
narrowest scope holds for some handlers (the PRIVMSG user-target branch
catches its failure and only logs) while others let failures escape
(the PRIVMSG channel-target branch raises on an unresolved channel). -/
theorem C8_amended :
    (∀ (out : List Line) (b : Bool),
      fromIrcStep false out b = ([], some SessionEnd.disconnect)) ∧
    (∀ (out : List Line),
      (fromIrcStep true out true).2 = some SessionEnd.crash) ∧
    (∀ (addmagic : String → String) (chanByName : String → Option Channel)
       (userByName : String → Option User) (dest msg : String),
      userByName dest = none → strStartsWith dest "#" = false →
        privmsghandler addmagic chanByName userByName dest msg
          = { loggedDrop := true }) ∧
    (∀ (addmagic : String → String) (chanByName : String → Option Channel)
       (userByName : String → Option User) (dest msg : String),
      chanByName (strDropL 1 dest) = none → strStartsWith dest "#" = true →
        (privmsghandler addmagic chanByName userByName dest msg).crashed
          = true) := by
  refine ⟨?_, ?_, ?_, ?_⟩
  · intro out b; rfl
  · intro out; rfl
  · intro addmagic chanByName userByName dest msg hu hd
    simp [privmsghandler, hu, hd]
  · intro addmagic chanByName userByName dest msg hc hd
    simp [privmsghandler, hc, hd]

/-- C8 amended witness: the concrete read-failure, handler-crash and
PRIVMSG branches. -/
theorem C8_amended_witness :
    (fromIrcStep false [] true = ([], some SessionEnd.disconnect)) ∧
    ((fromIrcStep true [] true).2 = some SessionEnd.crash) ∧
    (privmsghandler (fun s => s) (fun _ => none) (fun _ => none) "bob" ":hi"
      = { loggedDrop := true }) ∧
    ((privmsghandler (fun s => s) (fun _ => none) (fun _ => none) "#chan"
        ":hi").crashed = true) :=
  ⟨C8_amended.1 [] true,
   C8_amended.2.1 [],
   C8_amended.2.2.1 (fun s => s) (fun _ => none) (fun _ => none) "bob" ":hi"
     rfl (by decide),
   C8_amended.2.2.2 (fun s => s) (fun _ => none) (fun _ => none) "#chan" ":hi"
     rfl (by decide)⟩

/-! ## C1 — delivery order of queued events -/

/-- A history message that takes the plain injection path of the
`_history` loop: not a thread root, not the skipped last-seen
timestamp, and no attached files. -/
def plainMsg (last0 : ℚ) (m : HMsg) : Prop :=
  isThreadRoot m = false ∧ m.ts ≠ last0 ∧ m.files = []

instance plainMsgDecidable (last0 : ℚ) (m : HMsg) :
    Decidable (plainMsg last0 m) :=
  inferInstanceAs
    (Decidable (isThreadRoot m = false ∧ m.ts ≠ last0 ∧ m.files = []))

theorem historyLoop_plain_cons (tf : ℚ → List HMsg) (cid : String)
    (last0 : ℚ) (fuel : Nat) (m : HMsg) (rest : List HMsg) (st : ℚ)
    (h1 : isThreadRoot m = false) (h2 : m.ts ≠ last0) (h3 : m.files = []) :
    historyLoop tf cid last0 (fuel + 1) (m :: rest) st
      = ⟨injectEvent cid m
          :: (historyLoop tf cid last0 fuel rest (maxStep st m)).events,
         (historyLoop tf cid last0 fuel rest (maxStep st m)).status,
         (historyLoop tf cid last0 fuel rest (maxStep st m)).ok⟩ := by
  simp [historyLoop, h1, h2, h3]

theorem historyLoop_root_cons (tf : ℚ → List HMsg) (cid : String)
    (last0 : ℚ) (fuel : Nat) (root : HMsg) (rest replies : List HMsg)
    (st : ℚ) (h1 : isThreadRoot root = true) (h2 : root.ts ≠ last0)
    (h3 : root.files = [])
    (htf : thread_history (tf (root.threadTs.getD 0)) = some replies) :
    historyLoop tf cid last0 (fuel + 1) (root :: rest) st
      = historyLoop tf cid last0 fuel (replies.reverse ++ rest)
          (maxStep st root) := by
  simp [historyLoop, h1, h2, h3, htf]

theorem historyLoop_plain_append (tf : ℚ → List HMsg) (cid : String)
    (last0 : ℚ) (xs ys : List HMsg) (fuel : Nat) (st : ℚ)
    (h : ∀ m ∈ xs, plainMsg last0 m) :
    historyLoop tf cid last0 (xs.length + fuel) (xs ++ ys) st
      = ⟨xs.map (injectEvent cid)
          ++ (historyLoop tf cid last0 fuel ys (xs.foldl maxStep st)).events,
         (historyLoop tf cid last0 fuel ys (xs.foldl maxStep st)).status,
         (historyLoop tf cid last0 fuel ys (xs.foldl maxStep st)).ok⟩ := by
  induction xs generalizing st with
  | nil => simp
  | cons m t ih =>
    obtain ⟨h1, h2, h3⟩ := h m (List.mem_cons_self m t)
    have ht : ∀ x ∈ t, plainMsg last0 x :=
      fun x hx => h x (List.mem_cons_of_mem m hx)
    have hfuel : (m :: t).length + fuel = (t.length + fuel) + 1 := by
      rw [List.length_cons]; omega
    rw [hfuel, List.cons_append,
      historyLoop_plain_cons tf cid last0 (t.length + fuel) m (t ++ ys) st
        h1 h2 h3,
      ih (maxStep st m) ht]
    simp [List.foldl_cons]

/-- C1 counterexample: the claim says queued events are delivered to
the Session strictly FIFO in production order.  Two same-timestamp
history messages are appended to `_internalevents` in production order
[a, b], but `Slack.event` serves the queue with `list.pop()` (the last
element), so the session receives [b, a]. -/
theorem C1_counterexample :
    (historyLoop (fun _ => []) "C" 0 2
        [⟨7, "a", "U", [], none, false, none, "bot"⟩,
         ⟨7, "b", "U", [], none, false, none, "bot"⟩] 0).events
      = [SEvent.message "C" "U" "a", SEvent.message "C" "U" "b"] ∧
    drainInternal 2
        ((historyLoop (fun _ => []) "C" 0 2
          [⟨7, "a", "U", [], none, false, none, "bot"⟩,
           ⟨7, "b", "U", [], none, false, none, "bot"⟩] 0).events)
      = [SEvent.message "C" "U" "b", SEvent.message "C" "U" "a"] ∧
    SEvent.message "C" "U" "a" ≠ SEvent.message "C" "U" "b" := by
  decide

/-- C1 amended: the internal event queue is served LIFO — repeatedly
calling `Slack.event` delivers the queued events in *reverse* of the
order they were produced (first conjunct).  Because a history page
arrives newest-first and the thread fetch is reversed and spliced ahead
of the remaining work queue, draining the queue still realizes the
claimed thread-splice order: for a page `later ++ root :: rest` in
which `later` holds the (younger, ts > t0) non-thread messages and the
root opens a thread at t0, every thread reply is delivered (in
chronological order) before every event of `later` (second conjunct). -/
theorem C1_amended :
    (∀ (q : List SEvent) (n : Nat), q.length ≤ n →
      drainInternal n q = q.reverse) ∧
    (∀ (tf : ℚ → List HMsg) (cid : String) (last0 : ℚ)
       (later rest replies : List HMsg) (root : HMsg) (st : ℚ),
      (∀ m ∈ later, plainMsg last0 m) →
      (∀ m ∈ later, root.ts < m.ts) →
      isThreadRoot root = true → root.ts ≠ last0 → root.files = [] →
      thread_history (tf (root.threadTs.getD 0)) = some replies →
      (∀ m ∈ replies, plainMsg last0 m) →
      (∀ m ∈ rest, plainMsg last0 m) →
      drainInternal (later.length + (1 + (replies.length + rest.length)))
          ((historyLoop tf cid last0
              (later.length + (1 + (replies.length + rest.length)))
              (later ++ root :: rest) st).events)
        = (rest.map (injectEvent cid)).reverse
            ++ replies.map (injectEvent cid)
            ++ (later.map (injectEvent cid)).reverse) := by
  constructor
  · exact fun q n h => drainInternal_eq_reverse q n h
  · intro tf cid last0 later rest replies root st hlater hts hroot hrts hrtf
      htf hrep hrest
    have hxs : ∀ m ∈ replies.reverse ++ rest, plainMsg last0 m := by
      intro m hm
      rcases List.mem_append.mp hm with h | h
      · exact hrep m (List.mem_reverse.mp h)
      · exact hrest m h
    have hlen : (1 + (replies.length + rest.length))
        = ((replies.reverse ++ rest).length + 0) + 1 := by
      simp [List.length_append, List.length_reverse]
      omega
    have hev : (historyLoop tf cid last0
        (later.length + (1 + (replies.length + rest.length)))
        (later ++ root :: rest) st).events
        = later.map (injectEvent cid)
          ++ ((replies.reverse ++ rest).map (injectEvent cid) ++ []) := by
      rw [historyLoop_plain_append tf cid last0 later (root :: rest)
        (1 + (replies.length + rest.length)) st hlater]
      rw [hlen, historyLoop_root_cons tf cid last0
        ((replies.reverse ++ rest).length + 0) root rest replies
        (later.foldl maxStep st) hroot hrts hrtf htf]
      have h3' := historyLoop_plain_append tf cid last0
        (replies.reverse ++ rest) [] 0
        (maxStep (later.foldl maxStep st) root) hxs
      rw [List.append_nil] at h3'
      rw [h3']
      simp [historyLoop]
    rw [hev]
    have hlenev : (later.map (injectEvent cid)
        ++ ((replies.reverse ++ rest).map (injectEvent cid) ++ [])).length
        ≤ later.length + (1 + (replies.length + rest.length)) := by
      simp [List.length_append, List.length_reverse]
    rw [drainInternal_eq_reverse _ _ hlenev]
    simp [List.reverse_append, List.map_append, List.map_reverse]

/-- Concrete instances for the C1 amended witness: a newest-first page
[m2 (ts 20), root (ts 10, thread root), old (ts 5)] and a thread fetch
returning the root plus two replies (ts 11, 12). -/
def c1wTf : ℚ → List HMsg := fun _ =>
  [⟨10, "root", "U", [], some 10, false, none, "bot"⟩,
   ⟨11, "r1", "U", [], some 10, false, none, "bot"⟩,
   ⟨12, "r2", "U", [], some 10, false, none, "bot"⟩]

def c1wLater : List HMsg := [⟨20, "m2", "U", [], none, false, none, "bot"⟩]

def c1wRoot : HMsg := ⟨10, "root", "U", [], some 10, false, none, "bot"⟩

def c1wRest : List HMsg := [⟨5, "old", "U", [], none, false, none, "bot"⟩]

def c1wReplies : List HMsg :=
  [⟨10, "root", "U", [], none, false, none, "bot"⟩,
   ⟨11, "r1", "U", [], some 10, false, none, "bot"⟩,
   ⟨12, "r2", "U", [], some 10, false, none, "bot"⟩]

/-- C1 amended witness: LIFO drain of a two-element queue, and the
thread-splice delivery order on the concrete page. -/
theorem C1_amended_witness :
    drainInternal 2 [SEvent.message "C" "U" "x", SEvent.message "C" "U" "y"]
      = [SEvent.message "C" "U" "x", SEvent.message "C" "U" "y"].reverse ∧
    drainInternal (c1wLater.length + (1 + (c1wReplies.length + c1wRest.length)))
        ((historyLoop c1wTf "C" 0
            (c1wLater.length + (1 + (c1wReplies.length + c1wRest.length)))
            (c1wLater ++ c1wRoot :: c1wRest) 0).events)
      = (c1wRest.map (injectEvent "C")).reverse
          ++ c1wReplies.map (injectEvent "C")
          ++ (c1wLater.map (injectEvent "C")).reverse :=
  ⟨C1_amended.1 [SEvent.message "C" "U" "x", SEvent.message "C" "U" "y"] 2
     (by decide),
   C1_amended.2 c1wTf "C" 0 c1wLater c1wRest c1wReplies c1wRoot 0
     (by decide) (by decide) (by decide) (by decide) (by decide) (by decide)
     (by decide) (by decide)⟩

end LSI




